import Mathlib

/-!
Shallow embedding of `vtki/filters.py`: the convenience filter layer
(clip, slice, threshold, contour, outline, …) over an external
visualization kernel.  Scalar data values are modelled as `Option ℚ`
(`none` plays the role of NaN: it fails every comparison and is ignored
by the NaN-aware range computations).  The external kernel's geometric
outputs are modelled symbolically: each algorithm invocation becomes a
constructor of `KData` recording exactly the parameters the glue layer
configured on the algorithm object.  Python exceptions are modelled with
`Except PyError`.
-/

/-- Python exception kinds raised (directly or indirectly) by the filters. -/
inductive PyError where
  | keyError (msg : String)
  | typeError (msg : String)
  | indexError (msg : String)
  | assertionError (msg : String)
  | runtimeError (msg : String)
deriving DecidableEq, Repr

/-- Python sequence index adjustment: negative indices count from the end. -/
def pyAdjust (i : Int) (len : Nat) : Int := if i < 0 then i + len else i

/-- Python list indexing `l[i]` (negative indices wrap; out of range raises). -/
def pyGet {α : Type} (l : List α) (i : Int) : Except PyError α :=
  if pyAdjust i l.length < 0 then .error (.indexError "list index out of range")
  else match l.get? (pyAdjust i l.length).toNat with
    | some v => .ok v
    | none => .error (.indexError "list index out of range")

/-- Python list item assignment `l[i] = v` (negative indices wrap). -/
def pySet {α : Type} (l : List α) (i : Int) (v : α) : Except PyError (List α) :=
  if pyAdjust i l.length < 0 then
    .error (.indexError "list assignment index out of range")
  else if pyAdjust i l.length < l.length then
    .ok (l.set (pyAdjust i l.length).toNat v)
  else .error (.indexError "list assignment index out of range")

/-- `'slice%.2d' % i`: decimal rendering zero-padded to at least two digits. -/
def pad2 (i : Nat) : String :=
  if i < 10 then "0" ++ toString i else toString i

/-- `np.nanmin`: minimum of the non-NaN entries (`none` when all are NaN). -/
def nanminO (l : List (Option ℚ)) : Option ℚ :=
  match l.filterMap id with
  | [] => none
  | x :: xs => some (xs.foldl min x)

/-- `np.nanmax`: maximum of the non-NaN entries (`none` when all are NaN). -/
def nanmaxO (l : List (Option ℚ)) : Option ℚ :=
  match l.filterMap id with
  | [] => none
  | x :: xs => some (xs.foldl max x)

/-- NaN-propagating addition on scalar values. -/
def oAdd : Option ℚ → Option ℚ → Option ℚ
  | some a, some b => some (a + b)
  | _, _ => none

/-- NaN-propagating subtraction on scalar values. -/
def oSub : Option ℚ → Option ℚ → Option ℚ
  | some a, some b => some (a - b)
  | _, _ => none

/-- NaN-propagating multiplication on scalar values. -/
def oMul : Option ℚ → Option ℚ → Option ℚ
  | some a, some b => some (a * b)
  | _, _ => none

/-- A named data array: field association (0 = point data, 1 = cell data)
and its scalar values (`none` = NaN). -/
structure DataArray where
  assoc : Nat
  values : List (Option ℚ)
deriving DecidableEq, Repr

/-- Dataset bounding box: `(xmin, xmax, ymin, ymax, zmin, zmax)`. -/
structure Bounds where
  xmin : ℚ
  xmax : ℚ
  ymin : ℚ
  ymax : ℚ
  zmin : ℚ
  zmax : ℚ
deriving DecidableEq, Repr

/-- The 6-tuple `dataset.bounds` as Python exposes it for indexing. -/
def Bounds.toList (b : Bounds) : List ℚ :=
  [b.xmin, b.xmax, b.ymin, b.ymax, b.zmin, b.zmax]

/-- A plane primitive, as produced by `_generate_plane` (a `vtk.vtkPlane`
carrying the configured normal and origin). -/
structure Plane where
  normal : ℚ × ℚ × ℚ
  origin : ℚ × ℚ × ℚ
deriving DecidableEq, Repr

/-- Thresholding criterion configured on a `vtkThreshold` object:
`ThresholdBetween`, `ThresholdByLower` or `ThresholdByUpper`. -/
inductive ThreshMode where
  | between (lo hi : Option ℚ)
  | lower (v : Option ℚ)
  | upper (v : Option ℚ)
deriving DecidableEq, Repr

/-- Isosurface specification configured on a `vtkContourFilter`:
`GenerateValues(n, range)` or explicit values. -/
inductive ContourSpec where
  | generated (n : Int) (range : Option ℚ × Option ℚ)
  | explicit (values : List (Option ℚ))
deriving DecidableEq, Repr

/-- Kernel-side data object.  A `raw` node is caller-supplied source data
(named arrays plus bounding box); every other node is the output handle
of one external algorithm invocation, recording the algorithm and the
exact parameters this glue layer configured on it.  The kernel's actual
geometry computation is out of scope, so derived nodes stay symbolic. -/
inductive KData where
  | raw (arrays : List (String × DataArray)) (bounds : Bounds)
  | clipOut (input : KData) (plane : Plane) (invert : Bool)
  | cutOut (input : KData) (plane : Plane) (genTri : Bool)
  | threshOut (input : KData) (field : Nat) (name : String) (continuous : Bool)
      (mode : ThreshMode)
  | appendOut (a b : KData)
  | outlineOut (input : KData) (genFaces : Bool)
  | outlineCornersOut (input : KData) (factor : ℚ)
  | geometryOut (input : KData)
  | edgesOut (input : KData)
  | contourOut (input : KData) (field : Nat) (name : String)
      (computeNormals computeGradients computeScalars : Bool) (spec : ContourSpec)
deriving DecidableEq, Repr

/-- Bounding box of a kernel data object.  Only `raw` bounds are ever read
by the glue layer's own logic (slice bounds check, slice_along_axis
offsets, center defaults); for kernel-derived nodes the true bounds are
computed inside the external kernel and are not modelled — we recurse to
the input's bounds purely to keep the function total. -/
def KData.boundsOf : KData → Bounds
  | .raw _ b => b
  | .clipOut i _ _ => i.boundsOf
  | .cutOut i _ _ => i.boundsOf
  | .threshOut i _ _ _ _ => i.boundsOf
  | .appendOut a _ => a.boundsOf
  | .outlineOut i _ => i.boundsOf
  | .outlineCornersOut i _ => i.boundsOf
  | .geometryOut i => i.boundsOf
  | .edgesOut i => i.boundsOf
  | .contourOut i _ _ _ _ _ _ => i.boundsOf

/-- Named arrays of a kernel data object.  Only `raw` arrays are read by
the glue layer (scalar resolution happens on the caller's input dataset);
arrays of kernel-derived data are kernel-computed and not modelled. -/
def KData.arraysOf : KData → List (String × DataArray)
  | .raw arrs _ => arrs
  | _ => []

/-- The wrapped dataset abstraction: underlying kernel data plus the vtki
bookkeeping metadata (active scalar designation `(field, name)`). -/
structure Dataset where
  kdata : KData
  activeMeta : Option (Nat × String)
deriving DecidableEq, Repr

def Dataset.bounds (ds : Dataset) : Bounds := ds.kdata.boundsOf

def Dataset.arrays (ds : Dataset) : List (String × DataArray) := ds.kdata.arraysOf

/-- `dataset.n_scalars`: number of scalar arrays on the dataset. -/
def Dataset.n_scalars (ds : Dataset) : Nat := ds.arrays.length

/-- Modelled from the spec: `dataset.center` (a property of the wrapped
dataset classes, not under src/) is the geometric center of the bounding
box, exposed as a 3-sequence. -/
def Dataset.center (ds : Dataset) : List ℚ :=
  [(ds.bounds.xmin + ds.bounds.xmax) / 2,
   (ds.bounds.ymin + ds.bounds.ymax) / 2,
   (ds.bounds.zmin + ds.bounds.zmax) / 2]

/-- Modelled from the spec: `dataset.active_scalar_info` returns the
`(field, name)` pair of the active scalar designation. -/
def active_scalar_info (ds : Dataset) : Nat × String :=
  ds.activeMeta.getD (0, "")

/-- Modelled from the spec: `wrap` from `vtki.utilities` (not under src/)
converts a raw kernel output handle into the rich dataset abstraction;
the freshly wrapped dataset carries no bookkeeping metadata yet (the
metadata copy is a separate step, `copy_meta_from`). -/
def wrap (kd : KData) : Dataset :=
  { kdata := kd, activeMeta := none }

/-- Modelled from the spec: `data.copy_meta_from(src)` (a dataset method,
not under src/) copies forward the bookkeeping metadata — the active
scalar designation — from the original input onto `data`. -/
def copy_meta_from (data src : Dataset) : Dataset :=
  { data with activeMeta := src.activeMeta }

/-- Modelled from the spec: `data.set_active_scalar(name, preference)`
(a dataset method, not under src/) marks the named array as the active
scalar, the field association taken from the locality preference. -/
def set_active_scalar (data : Dataset) (name : String) (preference : String) : Dataset :=
  { data with activeMeta := some ((if preference == "point" then 0 else 1), name) }

/-- Modelled from the spec: `get_scalar` from `vtki.utilities` (not under
src/) resolves a named array against the dataset's point- and
cell-associated arrays, the locality preference breaking ties when the
name exists in both localities; with `info=True` it returns the array
together with its field association, or nothing when the name is absent. -/
def get_scalar (ds : Dataset) (name : String) (preference : String) :
    Option (DataArray × Nat) :=
  let hits := ds.arrays.filter (fun p => p.1 == name)
  let pref : Nat := if preference == "point" then 0 else 1
  match hits.find? (fun p => p.2.assoc == pref) with
  | some p => some (p.2, p.2.assoc)
  | none =>
    match hits with
    | [] => none
    | p :: _ => some (p.2, p.2.assoc)

/-- Modelled from the spec: `dataset.get_data_range(arr, preference)` (a
dataset method, not under src/) returns the non-NaN minimum and maximum
of the named array, failing when no such array can be resolved. -/
def get_data_range (ds : Dataset) (name : String) (preference : String) :
    Except PyError (Option ℚ × Option ℚ) :=
  match get_scalar ds name preference with
  | some (arr, _) => .ok (nanminO arr.values, nanmaxO arr.values)
  | none => .error (.runtimeError ("No array named " ++ name))

/-- Modelled from the spec: `is_inside_bounds` from `vtki.utilities` (not
under src/) checks that the resolved origin lies within the dataset's
bounding box. -/
def is_inside_bounds (point : List ℚ) (b : Bounds) : Bool :=
  match point with
  | [x, y, z] =>
    decide (b.xmin ≤ x ∧ x ≤ b.xmax ∧ b.ymin ≤ y ∧ y ≤ b.ymax ∧
      b.zmin ≤ z ∧ z ≤ b.zmax)
  | _ => false

/-- The `normal` argument as Python receives it: a symbolic direction
name, a sequence of components, or (through `slice_along_axis`'s
`normal=axis` call) a raw integer. -/
inductive NormalArg where
  | str (s : String)
  | vec (v : List ℚ)
  | int (i : Int)
deriving DecidableEq, Repr

/-- Python's `str.lower()` (ASCII casing, which covers the normal and
axis names the filters compare against). -/
def pyLower (s : String) : String := ⟨s.data.map Char.toLower⟩

/-- The `NORMALS` table of `vtki/filters.py`. -/
def NORMALS : List (String × List ℚ) :=
  [("x", [1, 0, 0]),
   ("y", [0, 1, 0]),
   ("z", [0, 0, 1]),
   ("-x", [-1, 0, 0]),
   ("-y", [0, -1, 0]),
   ("-z", [0, 0, -1])]

/-- `_get_output`: wrap the algorithm's output handle and copy the input
dataset's vtki meta info; optionally set an active scalar. -/
def _get_output (input : Dataset) (out : KData) (active_scalar : Option String)
    (active_scalar_field : String) : Dataset :=
  let data := wrap out
  let data := copy_meta_from data input
  match active_scalar with
  | some name => set_active_scalar data name active_scalar_field
  | none => data

/-- `_generate_plane(normal, origin)`: builds a `vtk.vtkPlane` from the
first three components of `normal` and `origin`.  Subscripting an
integer raises `TypeError`; a string is subscriptable in Python but its
character items are rejected by the kernel's `SetNormal`, modelled as a
`TypeError` as well (this arm is unreachable from the filters, which
resolve string normals first). -/
def _generate_plane (normal : NormalArg) (origin : List ℚ) : Except PyError Plane :=
  match normal with
  | .vec v => do
    let n0 ← pyGet v 0
    let n1 ← pyGet v 1
    let n2 ← pyGet v 2
    let o0 ← pyGet origin 0
    let o1 ← pyGet origin 1
    let o2 ← pyGet origin 2
    .ok { normal := (n0, n1, n2), origin := (o0, o1, o2) }
  | .int _ => .error (.typeError "'int' object is not subscriptable")
  | .str _ => .error (.typeError "vtkPlane.SetNormal rejects string components")

namespace DataSetFilters

/-- `DataSetFilters.clip`: resolve a string normal through `NORMALS`
(lowercased), default the origin to the dataset center, build the plane,
run `vtkClipDataSet`, and wrap its output with copied meta info. -/
def clip (ds : Dataset) (normal : NormalArg) (origin : Option (List ℚ))
    (invert : Bool) : Except PyError Dataset := do
  let normal : NormalArg ←
    match normal with
    | .str s =>
      match NORMALS.lookup (pyLower s) with
      | some v => .ok (.vec v)
      | none => .error (.keyError (pyLower s))
    | x => .ok x
  let origin := origin.getD ds.center
  let plane ← _generate_plane normal origin
  .ok (_get_output ds (.clipOut ds.kdata plane invert) none "point")

/-- `DataSetFilters.slice`: resolve a string normal through `NORMALS`
(lowercased), default the origin to the dataset center, check the origin
against the dataset bounds, build the plane, run `vtkCutter`, and wrap
its output with copied meta info. -/
def slice (ds : Dataset) (normal : NormalArg) (origin : Option (List ℚ))
    (generate_triangles : Bool) : Except PyError Dataset := do
  let normal : NormalArg ←
    match normal with
    | .str s =>
      match NORMALS.lookup (pyLower s) with
      | some v => .ok (.vec v)
      | none => .error (.keyError (pyLower s))
    | x => .ok x
  let origin := origin.getD ds.center
  if ¬ is_inside_bounds origin ds.bounds then
    .error (.assertionError "Slice is outside data bounds.")
  else do
    let plane ← _generate_plane normal origin
    .ok (_get_output ds (.cutOut ds.kdata plane generate_triangles) none "point")

/-- The `axis` argument of `slice_along_axis`: string name or index. -/
inductive AxisArg where
  | str (s : String)
  | int (i : Int)
deriving DecidableEq, Repr

/-- In `slice_along_axis` the raw `axis` argument is passed through as the
`normal=axis` keyword of `slice`. -/
def AxisArg.asNormal : AxisArg → NormalArg
  | .str s => .str s
  | .int i => .int i

/-- `np.linspace(start, stop, n)` over ℚ: `n` evenly spaced samples with
both endpoints included (`n = 1` gives just the start). -/
def linspace (start stop : ℚ) (n : Nat) : List ℚ :=
  if n = 0 then []
  else if n = 1 then [start]
  else (List.range n).map
    (fun i : Nat => start + (stop - start) / ((n : ℚ) - 1) * (i : ℚ))

/-- `DataSetFilters.slice_along_axis`: resolve the axis (string names via
the `{'x':0,'y':1,'z':2}` table, anything else used as an index), default
the tolerance to 1% of the axis extent, place `n` origins by
`np.linspace` between the toleranced bounds, and slice at each origin —
passing the raw `axis` argument as the `normal` of each slice.  Results
are collected into a labeled multi-block (`'slice%.2d' % i`). -/
def slice_along_axis (ds : Dataset) (n : Nat) (axis : AxisArg)
    (tolerance : Option ℚ) (generate_triangles : Bool) :
    Except PyError (List (String × Dataset)) := do
  let ax : Int ←
    match axis with
    | .str s =>
      match ([("x", 0), ("y", 1), ("z", 2)] : List (String × Int)).lookup s with
      | some a => .ok a
      | none => .error (.runtimeError ("Axis (" ++ s ++ ") not understood"))
    | .int i => .ok i
  let bLo ← pyGet ds.bounds.toList (ax * 2)
  let bHi ← pyGet ds.bounds.toList (ax * 2 + 1)
  let tolerance := tolerance.getD ((bHi - bLo) * (1 / 100))
  let rng := linspace (bLo + tolerance) (bHi - tolerance) n
  let center := ds.center
  (List.range n).mapM (fun (i : Nat) => do
    let ri ← pyGet rng (i : Int)
    let c ← pySet center ax ri
    let slc ← slice ds axis.asNormal (some c) generate_triangles
    .ok ("slice" ++ pad2 i, slc))

/-- The `value` argument of `threshold` (resp. the computed values of
`threshold_percent`): a single scalar or an iterable of scalars,
`none` components modelling NaN. -/
inductive TValue where
  | single (v : Option ℚ)
  | range (vs : List (Option ℚ))
deriving DecidableEq, Repr

/-- `DataSetFilters.threshold`: resolve the target scalar array (active
scalar when unnamed), fail when none resolves; an iterable value with
`invert=True` is emulated as two non-inverted thresholds against
`[nanmin, value[0]]` and `[value[1], nanmax]` merged by a
`vtkAppendFilter`; otherwise a single `vtkThreshold` is configured with
`ThresholdBetween` (length-2 iterables only), `ThresholdByLower`
(single value, inverted) or `ThresholdByUpper` (single value). -/
def threshold (ds : Dataset) (value : Option TValue) (scalars : Option String)
    (invert : Bool) (continuous : Bool) (preference : String) :
    Except PyError Dataset :=
  let scalars :=
    match scalars with
    | none => (active_scalar_info ds).2
    | some s => s
  match get_scalar ds scalars preference with
  | none => .error (.assertionError "No arrays present to threshold.")
  | some (arr, field) =>
    match value, invert with
    | some (.range vs), true => do
      let valid0 := nanminO arr.values
      let valid1 := nanmaxO arr.values
      let v0 ← pyGet vs 0
      let t1 ← threshold ds (some (.range [valid0, v0])) (some scalars) false
        continuous preference
      let v1 ← pyGet vs 1
      let t2 ← threshold ds (some (.range [v1, valid1])) (some scalars) false
        continuous preference
      .ok (_get_output t1 (.appendOut t1.kdata t2.kdata) none "point")
    | value, invert => do
      let value : TValue ←
        match value with
        | none => do
          let rng ← get_data_range ds scalars "cell"
          .ok (.range [rng.1, rng.2])
        | some v => .ok v
      match value with
      | .range vs =>
        if vs.length ≠ 2 then
          .error (.assertionError
            "Value range must be length one for a float value or two for min/max.")
        else do
          let v0 ← pyGet vs 0
          let v1 ← pyGet vs 1
          .ok (_get_output ds
            (.threshOut ds.kdata field scalars continuous (.between v0 v1))
            none "point")
      | .single v =>
        if invert then
          .ok (_get_output ds
            (.threshOut ds.kdata field scalars continuous (.lower v)) none "point")
        else
          .ok (_get_output ds
            (.threshOut ds.kdata field scalars continuous (.upper v)) none "point")
termination_by (if invert then 1 else 0)
decreasing_by all_goals simp

/-- `_check_percent` (inner helper of `threshold_percent`): inputs at or
above 1 are divided by 100 and rejected when the quotient still exceeds
1; anything below `1e-10` after that is rejected as too close to zero. -/
def _check_percent (percent : ℚ) : Except PyError ℚ :=
  if percent ≥ 1 then
    let percent := percent / 100
    if percent > 1 then
      .error (.runtimeError
        ("Percentage (" ++ toString percent ++ ") is out of range (0, 1)."))
    else if percent < 1 / 10 ^ 10 then
      .error (.runtimeError
        ("Percentage (" ++ toString percent ++ ") is too close to zero or negative."))
    else .ok percent
  else if percent < 1 / 10 ^ 10 then
    .error (.runtimeError
      ("Percentage (" ++ toString percent ++ ") is too close to zero or negative."))
  else .ok percent

/-- `_get_val` (inner helper of `threshold_percent`): absolute threshold
value at a percentage of the `[dmin, dmax]` range. -/
def _get_val (percent : ℚ) (dmin dmax : Option ℚ) : Except PyError (Option ℚ) := do
  let p ← _check_percent percent
  .ok (oAdd dmin (oMul (some p) (oSub dmax dmin)))

/-- The `percent` argument of `threshold_percent`. -/
inductive PercentArg where
  | single (p : ℚ)
  | pair (p0 p1 : ℚ)
deriving DecidableEq, Repr

/-- `DataSetFilters.threshold_percent`: convert the percentage(s) of the
resolved array's data range into absolute value(s) and delegate to
`threshold` (with the original, possibly-unset, `scalars` argument). -/
def threshold_percent (ds : Dataset) (percent : PercentArg)
    (scalars : Option String) (invert : Bool) (continuous : Bool)
    (preference : String) : Except PyError Dataset := do
  let tscalars :=
    match scalars with
    | none => (active_scalar_info ds).2
    | some s => s
  let rng ← get_data_range ds tscalars preference
  let value : TValue ←
    match percent with
    | .pair p0 p1 => do
      let v0 ← _get_val p0 rng.1 rng.2
      let v1 ← _get_val p1 rng.1 rng.2
      .ok (.range [v0, v1])
    | .single p => do
      let v ← _get_val p rng.1 rng.2
      .ok (.single v)
  threshold ds (some value) scalars invert continuous preference

/-- `DataSetFilters.outline`: run `vtkOutlineFilter` and wrap its raw
output (no meta info copy). -/
def outline (ds : Dataset) (generate_faces : Bool) : Dataset :=
  wrap (.outlineOut ds.kdata generate_faces)

/-- `DataSetFilters.outline_corners`: run `vtkOutlineCornerFilter` and
wrap its raw output (no meta info copy). -/
def outline_corners (ds : Dataset) (factor : ℚ) : Dataset :=
  wrap (.outlineCornersOut ds.kdata factor)

/-- `DataSetFilters.extract_geometry`: run `vtkGeometryFilter` and wrap
its output with copied meta info. -/
def extract_geometry (ds : Dataset) : Dataset :=
  _get_output ds (.geometryOut ds.kdata) none "point"

/-- `DataSetFilters.wireframe`: run `vtkExtractEdges` and wrap its output
with copied meta info. -/
def wireframe (ds : Dataset) : Dataset :=
  _get_output ds (.edgesOut ds.kdata) none "point"

/-- The `isosurfaces` argument of `contour`. -/
inductive IsoArg where
  | int (n : Int)
  | list (vs : List (Option ℚ))
deriving DecidableEq, Repr

/-- `DataSetFilters.contour`: require at least one scalar array, resolve
the target array (active scalar when unnamed), reject non-point-data
arrays, configure the isosurface levels and run `vtkContourFilter`,
wrapping its output with copied meta info. -/
def contour (ds : Dataset) (isosurfaces : IsoArg) (scalars : Option String)
    (compute_normals compute_gradients compute_scalars : Bool)
    (preference : String) : Except PyError Dataset := do
  if ds.n_scalars < 1 then
    .error (.assertionError
      "Input dataset for the contour filter must have scalar data.")
  else do
    let (field, scalars) ←
      match scalars with
      | none => .ok (active_scalar_info ds)
      | some s =>
        match get_scalar ds s preference with
        | some (_, f) => .ok (f, s)
        | none => .error (.runtimeError ("No array named " ++ s))
    if field ≠ 0 then
      .error (.assertionError
        ("Contour filter only works on Point data. Array (" ++ scalars ++
          ") is in the Cell data."))
    else do
      let spec : ContourSpec ←
        match isosurfaces with
        | .int n => do
          let rng ← get_data_range ds scalars "cell"
          .ok (.generated n rng)
        | .list vs => .ok (.explicit vs)
      .ok (_get_output ds
        (.contourOut ds.kdata field scalars compute_normals compute_gradients
          compute_scalars spec) none "point")

end DataSetFilters

/-! Auxiliary definitions used by the verification theorems. -/

/-- A normal argument that passes the string-resolution step of `clip` and
`slice` (the only step that can fail before the plane is built): either a
known direction name, or any non-string value (passed through unchanged). -/
def normalStage1Ok : NormalArg → Bool
  | .str s => (NORMALS.lookup (pyLower s)).isSome
  | _ => true

/-- A normal argument on which both the string-resolution step and the
plane construction of `clip`/`slice` succeed. -/
def normalResolvable : NormalArg → Bool
  | .str s => (NORMALS.lookup (pyLower s)).isSome
  | .vec v => decide (3 ≤ v.length)
  | .int _ => false

/-- The x-coordinate of the cut plane's origin recorded in a dataset
produced by the slice filter. -/
def sliceOriginX (d : Dataset) : ℚ :=
  match d.kdata with
  | .cutOut _ p _ => p.origin.1
  | _ => 0

/-- The percentage normalization step of `_check_percent`: inputs at or
above 1 are divided by 100. -/
def pnormalize (p : ℚ) : ℚ := if p ≥ 1 then p / 100 else p

/-- Closed form of the `i`-th entry of `np.linspace start stop n`. -/
def linval (start stop : ℚ) (n i : Nat) : ℚ :=
  if n ≤ 1 then start else start + (stop - start) / ((n : ℚ) - 1) * i

/-- The unit-cube bounding box used by the concrete sample datasets. -/
def unitBounds : Bounds := ⟨0, 1, 0, 1, 0, 1⟩

/-- A concrete sample dataset: one cell-associated scalar array `"s"`
with values spanning `[0, 10]`, designated as the active scalar. -/
def ds0 : Dataset :=
  ⟨.raw [("s", ⟨1, [some 0, some 10]⟩)] unitBounds, some (1, "s")⟩

/-- A concrete sample dataset with a point-associated scalar array. -/
def dsPoint : Dataset :=
  ⟨.raw [("p", ⟨0, [some 0, some 4, some 10]⟩)] unitBounds, some (0, "p")⟩

/-- A concrete sample dataset with no scalar arrays at all. -/
def dsEmpty : Dataset := ⟨.raw [] unitBounds, none⟩

/-! Helper lemmas. -/

theorem ebind_ok {α β : Type} (a : α) (k : α → Except PyError β) :
    (Except.ok a : Except PyError α) >>= k = k a := rfl

theorem ebind_error {α β : Type} (e : PyError) (k : α → Except PyError β) :
    (Except.error e : Except PyError α) >>= k = .error e := rfl

theorem exc_bind_ok {α β : Type} {x : Except PyError α} {k : α → Except PyError β}
    {b : β} (h : x >>= k = .ok b) : ∃ a, x = .ok a ∧ k a = .ok b := by
  cases x with
  | error e => exact absurd h (by simp [ebind_error])
  | ok a => exact ⟨a, rfl, h⟩

theorem pyGet_shape {α : Type} (l : List α) (i : Int) :
    (∃ v, pyGet l i = .ok v) ∨
      ∃ m, pyGet l i = .error (.indexError m) := by
  unfold pyGet
  repeat' split
  all_goals first
    | exact .inl ⟨_, rfl⟩
    | exact .inr ⟨_, rfl⟩

theorem plane_shape (n : NormalArg) (o : List ℚ) :
    (∃ p, _generate_plane n o = .ok p) ∨
      (∃ m, _generate_plane n o = .error (.typeError m)) ∨
      (∃ m, _generate_plane n o = .error (.indexError m)) := by
  cases n with
  | int i => exact .inr (.inl ⟨_, rfl⟩)
  | str s => exact .inr (.inl ⟨_, rfl⟩)
  | vec v =>
    unfold _generate_plane
    dsimp only
    rcases pyGet_shape v 0 with ⟨n0, h0⟩ | ⟨m, h0⟩
    · rw [h0, ebind_ok]
      rcases pyGet_shape v 1 with ⟨n1, h1⟩ | ⟨m, h1⟩
      · rw [h1, ebind_ok]
        rcases pyGet_shape v 2 with ⟨n2, h2⟩ | ⟨m, h2⟩
        · rw [h2, ebind_ok]
          rcases pyGet_shape o 0 with ⟨o0, g0⟩ | ⟨m, g0⟩
          · rw [g0, ebind_ok]
            rcases pyGet_shape o 1 with ⟨o1, g1⟩ | ⟨m, g1⟩
            · rw [g1, ebind_ok]
              rcases pyGet_shape o 2 with ⟨o2, g2⟩ | ⟨m, g2⟩
              · rw [g2, ebind_ok]
                exact .inl ⟨_, rfl⟩
              · rw [g2]
                exact .inr (.inr ⟨m, ebind_error _ _⟩)
            · rw [g1]
              exact .inr (.inr ⟨m, ebind_error _ _⟩)
          · rw [g0]
            exact .inr (.inr ⟨m, ebind_error _ _⟩)
        · rw [h2]
          exact .inr (.inr ⟨m, ebind_error _ _⟩)
      · rw [h1]
        exact .inr (.inr ⟨m, ebind_error _ _⟩)
    · rw [h0]
      exact .inr (.inr ⟨m, ebind_error _ _⟩)

theorem normals_lookup_length {l : String} {w : List ℚ}
    (h : NORMALS.lookup l = some w) : 3 ≤ w.length := by
  simp only [NORMALS, List.lookup] at h
  repeat' split at h
  all_goals cases h
  all_goals decide

theorem generate_plane_ok : ∀ (v origin : List ℚ), 3 ≤ v.length →
    3 ≤ origin.length → ∃ p, _generate_plane (.vec v) origin = .ok p
  | a :: b :: c :: _, x :: y :: z :: _, _, _ => ⟨⟨(a, b, c), (x, y, z)⟩, rfl⟩
  | [], _, h, _ => absurd h (by simp)
  | [_], _, h, _ => absurd h (by simp)
  | [_, _], _, h, _ => absurd h (by simp)
  | _ :: _ :: _ :: _, [], _, h => absurd h (by simp)
  | _ :: _ :: _ :: _, [_], _, h => absurd h (by simp)
  | _ :: _ :: _ :: _, [_, _], _, h => absurd h (by simp)

theorem clip_shape (ds : Dataset) (nrm : NormalArg) (origin : Option (List ℚ))
    (invert : Bool) :
    (∃ plane, DataSetFilters.clip ds nrm origin invert =
        .ok (_get_output ds (.clipOut ds.kdata plane invert) none "point")) ∨
      (∃ s, DataSetFilters.clip ds nrm origin invert = .error (.keyError s)) ∨
      (∃ m, DataSetFilters.clip ds nrm origin invert = .error (.typeError m)) ∨
      (∃ m, DataSetFilters.clip ds nrm origin invert = .error (.indexError m)) := by
  rcases nrm with s | v | i
  · unfold DataSetFilters.clip
    dsimp only
    rcases hl : NORMALS.lookup (pyLower s) with _ | w
    · dsimp only
      exact .inr (.inl ⟨_, ebind_error _ _⟩)
    · dsimp only
      rw [ebind_ok]
      rcases plane_shape (.vec w) (origin.getD ds.center) with
        ⟨p, hp⟩ | ⟨m, hp⟩ | ⟨m, hp⟩
      · rw [hp, ebind_ok]
        exact .inl ⟨p, rfl⟩
      · rw [hp]
        exact .inr (.inr (.inl ⟨m, ebind_error _ _⟩))
      · rw [hp]
        exact .inr (.inr (.inr ⟨m, ebind_error _ _⟩))
  · unfold DataSetFilters.clip
    dsimp only
    rw [ebind_ok]
    rcases plane_shape (.vec v) (origin.getD ds.center) with
      ⟨p, hp⟩ | ⟨m, hp⟩ | ⟨m, hp⟩
    · rw [hp, ebind_ok]
      exact .inl ⟨p, rfl⟩
    · rw [hp]
      exact .inr (.inr (.inl ⟨m, ebind_error _ _⟩))
    · rw [hp]
      exact .inr (.inr (.inr ⟨m, ebind_error _ _⟩))
  · unfold DataSetFilters.clip
    dsimp only
    rw [ebind_ok]
    exact .inr (.inr (.inl ⟨_, ebind_error _ _⟩))

theorem slice_shape (ds : Dataset) (nrm : NormalArg) (origin : Option (List ℚ))
    (gt : Bool) :
    (∃ plane, DataSetFilters.slice ds nrm origin gt =
        .ok (_get_output ds (.cutOut ds.kdata plane gt) none "point")) ∨
      (∃ s, DataSetFilters.slice ds nrm origin gt = .error (.keyError s)) ∨
      (DataSetFilters.slice ds nrm origin gt =
        .error (.assertionError "Slice is outside data bounds.")) ∨
      (∃ m, DataSetFilters.slice ds nrm origin gt = .error (.typeError m)) ∨
      (∃ m, DataSetFilters.slice ds nrm origin gt = .error (.indexError m)) := by
  have body : ∀ (w : NormalArg),
      (∃ plane, (if ¬ is_inside_bounds (origin.getD ds.center) ds.bounds then
          .error (.assertionError "Slice is outside data bounds.")
        else do
          let plane ← _generate_plane w (origin.getD ds.center)
          .ok (_get_output ds (.cutOut ds.kdata plane gt) none "point")) =
        Except.ok (_get_output ds (.cutOut ds.kdata plane gt) none "point")) ∨
      (∃ s, (if ¬ is_inside_bounds (origin.getD ds.center) ds.bounds then
          .error (.assertionError "Slice is outside data bounds.")
        else do
          let plane ← _generate_plane w (origin.getD ds.center)
          .ok (_get_output ds (.cutOut ds.kdata plane gt) none "point")) =
        Except.error (.keyError s)) ∨
      ((if ¬ is_inside_bounds (origin.getD ds.center) ds.bounds then
          .error (.assertionError "Slice is outside data bounds.")
        else do
          let plane ← _generate_plane w (origin.getD ds.center)
          .ok (_get_output ds (.cutOut ds.kdata plane gt) none "point")) =
        Except.error (.assertionError "Slice is outside data bounds.")) ∨
      (∃ m, (if ¬ is_inside_bounds (origin.getD ds.center) ds.bounds then
          .error (.assertionError "Slice is outside data bounds.")
        else do
          let plane ← _generate_plane w (origin.getD ds.center)
          .ok (_get_output ds (.cutOut ds.kdata plane gt) none "point")) =
        Except.error (.typeError m)) ∨
      (∃ m, (if ¬ is_inside_bounds (origin.getD ds.center) ds.bounds then
          .error (.assertionError "Slice is outside data bounds.")
        else do
          let plane ← _generate_plane w (origin.getD ds.center)
          .ok (_get_output ds (.cutOut ds.kdata plane gt) none "point")) =
        Except.error (.indexError m)) := by
    intro w
    by_cases hib : is_inside_bounds (origin.getD ds.center) ds.bounds
    · simp only [hib, not_true_eq_false, if_false]
      rcases plane_shape w (origin.getD ds.center) with ⟨p, hp⟩ | ⟨m, hp⟩ | ⟨m, hp⟩
      · rw [hp, ebind_ok]
        exact .inl ⟨p, rfl⟩
      · rw [hp]
        exact .inr (.inr (.inr (.inl ⟨m, ebind_error _ _⟩)))
      · rw [hp]
        exact .inr (.inr (.inr (.inr ⟨m, ebind_error _ _⟩)))
    · simp only [hib, not_false_eq_true, if_true]
      exact .inr (.inr (.inl rfl))
  rcases nrm with s | v | i
  · unfold DataSetFilters.slice
    dsimp only
    rcases hl : NORMALS.lookup (pyLower s) with _ | w
    · dsimp only
      exact .inr (.inl ⟨_, ebind_error _ _⟩)
    · dsimp only
      rw [ebind_ok]
      exact body (.vec w)
  · unfold DataSetFilters.slice
    dsimp only
    rw [ebind_ok]
    exact body (.vec v)
  · unfold DataSetFilters.slice
    dsimp only
    rw [ebind_ok]
    exact body (.int i)

theorem center_inside (ds : Dataset) (h1 : ds.bounds.xmin ≤ ds.bounds.xmax)
    (h2 : ds.bounds.ymin ≤ ds.bounds.ymax)
    (h3 : ds.bounds.zmin ≤ ds.bounds.zmax) :
    is_inside_bounds ds.center ds.bounds = true := by
  simp only [is_inside_bounds, Dataset.center]
  refine decide_eq_true ⟨?_, ?_, ?_, ?_, ?_, ?_⟩ <;> linarith

/-! Claim theorems. -/

/-- C6: for each of the six axis-aligned symbolic normal names accepted by
clip and slice, the `NORMALS` table resolves to the documented unit
vector: `x` → (1,0,0), `y` → (0,1,0), `z` → (0,0,1), `-x` → (-1,0,0),
`-y` → (0,-1,0), `-z` → (0,0,-1). -/
theorem C6_normals_table :
    NORMALS.lookup "x" = some [1, 0, 0] ∧
    NORMALS.lookup "y" = some [0, 1, 0] ∧
    NORMALS.lookup "z" = some [0, 0, 1] ∧
    NORMALS.lookup "-x" = some [-1, 0, 0] ∧
    NORMALS.lookup "-y" = some [0, -1, 0] ∧
    NORMALS.lookup "-z" = some [0, 0, -1] := by
  refine ⟨rfl, rfl, rfl, rfl, rfl, rfl⟩

/-- C10: symbolic normal names in clip and slice are case-insensitive —
for every name of the axis table and every letter casing of it, the
operation produces the same result as with the lowercase name, because
the name is lowercased before the `NORMALS` lookup. -/
theorem C10_case_insensitive_normals (ds : Dataset) (origin : Option (List ℚ))
    (invert gt : Bool) :
    (DataSetFilters.clip ds (.str "X") origin invert =
      DataSetFilters.clip ds (.str "x") origin invert) ∧
    (DataSetFilters.clip ds (.str "Y") origin invert =
      DataSetFilters.clip ds (.str "y") origin invert) ∧
    (DataSetFilters.clip ds (.str "Z") origin invert =
      DataSetFilters.clip ds (.str "z") origin invert) ∧
    (DataSetFilters.clip ds (.str "-X") origin invert =
      DataSetFilters.clip ds (.str "-x") origin invert) ∧
    (DataSetFilters.clip ds (.str "-Y") origin invert =
      DataSetFilters.clip ds (.str "-y") origin invert) ∧
    (DataSetFilters.clip ds (.str "-Z") origin invert =
      DataSetFilters.clip ds (.str "-z") origin invert) ∧
    (DataSetFilters.slice ds (.str "X") origin gt =
      DataSetFilters.slice ds (.str "x") origin gt) ∧
    (DataSetFilters.slice ds (.str "Y") origin gt =
      DataSetFilters.slice ds (.str "y") origin gt) ∧
    (DataSetFilters.slice ds (.str "Z") origin gt =
      DataSetFilters.slice ds (.str "z") origin gt) ∧
    (DataSetFilters.slice ds (.str "-X") origin gt =
      DataSetFilters.slice ds (.str "-x") origin gt) ∧
    (DataSetFilters.slice ds (.str "-Y") origin gt =
      DataSetFilters.slice ds (.str "-y") origin gt) ∧
    (DataSetFilters.slice ds (.str "-Z") origin gt =
      DataSetFilters.slice ds (.str "-z") origin gt) :=
  ⟨rfl, rfl, rfl, rfl, rfl, rfl, rfl, rfl, rfl, rfl, rfl, rfl⟩

/-- C8: clip never performs the slice bounds check — it never fails with
the bounds-violation error for any origin, and for any resolvable normal
and any 3-component origin (inside the bounds or not) it succeeds. -/
theorem C8_clip_no_bounds_check (ds : Dataset) :
    (∀ (nrm : NormalArg) (origin : Option (List ℚ)) (invert : Bool),
        DataSetFilters.clip ds nrm origin invert ≠
          .error (.assertionError "Slice is outside data bounds.")) ∧
    (∀ (nrm : NormalArg) (origin : List ℚ) (invert : Bool),
        normalResolvable nrm = true → 3 ≤ origin.length →
        ∃ out, DataSetFilters.clip ds nrm (some origin) invert = .ok out) := by
  constructor
  · intro nrm origin invert
    rcases clip_shape ds nrm origin invert with
      ⟨p, h⟩ | ⟨s, h⟩ | ⟨m, h⟩ | ⟨m, h⟩ <;> rw [h] <;> simp
  · intro nrm origin invert hres hlen
    rcases nrm with s | v | i
    · simp only [normalResolvable, Option.isSome_iff_exists] at hres
      obtain ⟨w, hl⟩ := hres
      have hw := normals_lookup_length hl
      unfold DataSetFilters.clip
      dsimp only
      rw [hl]
      dsimp only
      rw [ebind_ok]
      simp only [Option.getD_some]
      obtain ⟨p, hp⟩ := generate_plane_ok w origin hw hlen
      rw [hp, ebind_ok]
      exact ⟨_, rfl⟩
    · simp only [normalResolvable, decide_eq_true_eq] at hres
      unfold DataSetFilters.clip
      dsimp only
      rw [ebind_ok]
      simp only [Option.getD_some]
      obtain ⟨p, hp⟩ := generate_plane_ok v origin hres hlen
      rw [hp, ebind_ok]
      exact ⟨_, rfl⟩
    · simp [normalResolvable] at hres

/-- C8 witness: on a concrete dataset, clip at an origin far outside the
unit-cube bounds succeeds (no bounds check is performed). -/
theorem C8_clip_no_bounds_check_witness :
    ∃ out, DataSetFilters.clip ds0 (.str "x") (some [100, 100, 100]) true =
      .ok out :=
  (C8_clip_no_bounds_check ds0).2 (.str "x") [100, 100, 100] true
    (by decide) (by decide)

/-- C9 counterexample: `outline` and `outline_corners` do not copy the
input's bookkeeping metadata — on a dataset whose active-scalar
designation is set, their outputs carry no designation at all. -/
theorem C9_outline_meta_cex :
    ds0.activeMeta = some (1, "s") ∧
    (DataSetFilters.outline ds0 false).activeMeta = none ∧
    (DataSetFilters.outline_corners ds0 (1 / 5)).activeMeta = none :=
  ⟨rfl, rfl, rfl⟩

theorem threshold_false_ok_meta (ds : Dataset)
    (value : Option DataSetFilters.TValue) (scalars : Option String)
    (cont : Bool) (pref : String) (out : Dataset)
    (h : DataSetFilters.threshold ds value scalars false cont pref = .ok out) :
    out.activeMeta = ds.activeMeta := by
  rw [DataSetFilters.threshold.eq_def] at h
  dsimp only at h
  split at h
  · exact absurd h (by simp)
  · split at h
    · rename_i heq
      exact absurd heq (by simp)
    · split at h
      · obtain ⟨rng, _, h2⟩ := exc_bind_ok h
        rw [ebind_ok] at h2
        dsimp only at h2
        rw [if_neg (by simp)] at h2
        rw [show pyGet [rng.1, rng.2] (0 : Int) = .ok rng.1 from rfl, ebind_ok,
          show pyGet [rng.1, rng.2] (1 : Int) = .ok rng.2 from rfl,
          ebind_ok] at h2
        cases h2
        rfl
      · rw [ebind_ok] at h
        split at h
        · split at h
          · exact absurd h (by simp)
          · obtain ⟨a, _, h3⟩ := exc_bind_ok h
            obtain ⟨b, _, h4⟩ := exc_bind_ok h3
            cases h4
            rfl
        · rw [if_neg (by simp)] at h
          cases h
          rfl

theorem threshold_ok_meta (ds : Dataset) (value : Option DataSetFilters.TValue)
    (scalars : Option String) (invert cont : Bool) (pref : String)
    (out : Dataset)
    (h : DataSetFilters.threshold ds value scalars invert cont pref = .ok out) :
    out.activeMeta = ds.activeMeta := by
  cases invert with
  | false => exact threshold_false_ok_meta ds value scalars cont pref out h
  | true =>
    rw [DataSetFilters.threshold.eq_def] at h
    dsimp only at h
    split at h
    · exact absurd h (by simp)
    · split at h
      · obtain ⟨a, _, h1⟩ := exc_bind_ok h
        obtain ⟨t1, ht1, h2⟩ := exc_bind_ok h1
        obtain ⟨b, _, h3⟩ := exc_bind_ok h2
        obtain ⟨t2, _, h4⟩ := exc_bind_ok h3
        cases h4
        show t1.activeMeta = ds.activeMeta
        exact threshold_false_ok_meta ds _ _ _ _ t1 ht1
      · split at h
        · obtain ⟨rng, _, h2⟩ := exc_bind_ok h
          rw [ebind_ok] at h2
          dsimp only at h2
          rw [if_neg (by simp)] at h2
          rw [show pyGet [rng.1, rng.2] (0 : Int) = .ok rng.1 from rfl, ebind_ok,
            show pyGet [rng.1, rng.2] (1 : Int) = .ok rng.2 from rfl,
            ebind_ok] at h2
          cases h2
          rfl
        · rw [ebind_ok] at h
          split at h
          · split at h
            · exact absurd h (by simp)
            · obtain ⟨a, _, h3⟩ := exc_bind_ok h
              obtain ⟨b, _, h4⟩ := exc_bind_ok h3
              cases h4
              rfl
          · rw [if_pos rfl] at h
            cases h
            rfl

theorem contour_ok_meta (ds : Dataset) (iso : DataSetFilters.IsoArg)
    (scalars : Option String) (cn cg cs : Bool) (pref : String) (out : Dataset)
    (h : DataSetFilters.contour ds iso scalars cn cg cs pref = .ok out) :
    out.activeMeta = ds.activeMeta := by
  unfold DataSetFilters.contour at h
  split at h
  · exact absurd h (by simp)
  · rcases scalars with _ | s
    · dsimp only at h
      rw [ebind_ok] at h
      rcases hai : active_scalar_info ds with ⟨fld, nm⟩
      rw [hai] at h
      dsimp only at h
      split at h
      · exact absurd h (by simp)
      · rcases iso with n | vs
        · try dsimp only at h
          obtain ⟨rng, _, h2⟩ := exc_bind_ok h
          rw [ebind_ok] at h2
          try dsimp only at h2
          cases h2
          rfl
        · try dsimp only at h
          rw [ebind_ok] at h
          try dsimp only at h
          cases h
          rfl
    · dsimp only at h
      rcases hg : get_scalar ds s pref with _ | p
      · rw [hg] at h
        dsimp only at h
        rw [ebind_error] at h
        exact absurd h (by simp)
      · rcases p with ⟨arr2, f⟩
        rw [hg] at h
        dsimp only at h
        rw [ebind_ok] at h
        dsimp only at h
        split at h
        · exact absurd h (by simp)
        · rcases iso with n | vs
          · try dsimp only at h
            obtain ⟨rng, _, h2⟩ := exc_bind_ok h
            rw [ebind_ok] at h2
            try dsimp only at h2
            cases h2
            rfl
          · try dsimp only at h
            rw [ebind_ok] at h
            try dsimp only at h
            cases h
            rfl

/-- C9 (amended): the filters that return their result through the
metadata-copying helper `_get_output` with no active-scalar override —
clip, slice, threshold, contour, extract_geometry and wireframe — copy
forward the input dataset's active-scalar designation onto their output,
while `outline` and `outline_corners` wrap the raw kernel output without
copying any metadata. -/
theorem C9_meta_propagation (ds : Dataset) (gf : Bool) (f : ℚ) :
    (DataSetFilters.extract_geometry ds).activeMeta = ds.activeMeta ∧
    (DataSetFilters.wireframe ds).activeMeta = ds.activeMeta ∧
    (DataSetFilters.outline ds gf).activeMeta = none ∧
    (DataSetFilters.outline_corners ds f).activeMeta = none ∧
    (∀ nrm origin invert out, DataSetFilters.clip ds nrm origin invert = .ok out →
      out.activeMeta = ds.activeMeta) ∧
    (∀ nrm origin gt out, DataSetFilters.slice ds nrm origin gt = .ok out →
      out.activeMeta = ds.activeMeta) ∧
    (∀ value scalars invert cont pref out,
      DataSetFilters.threshold ds value scalars invert cont pref = .ok out →
      out.activeMeta = ds.activeMeta) ∧
    (∀ iso scalars cn cg cs pref out,
      DataSetFilters.contour ds iso scalars cn cg cs pref = .ok out →
      out.activeMeta = ds.activeMeta) := by
  refine ⟨rfl, rfl, rfl, rfl, ?_, ?_,
    fun value scalars invert cont pref out h =>
      threshold_ok_meta ds value scalars invert cont pref out h,
    fun iso scalars cn cg cs pref out h =>
      contour_ok_meta ds iso scalars cn cg cs pref out h⟩
  · intro nrm origin invert out h
    rcases clip_shape ds nrm origin invert with
      ⟨p, hc⟩ | ⟨s, hc⟩ | ⟨m, hc⟩ | ⟨m, hc⟩ <;> rw [hc] at h
    · cases h
      rfl
    all_goals exact absurd h (by simp)
  · intro nrm origin gt out h
    rcases slice_shape ds nrm origin gt with
      ⟨p, hc⟩ | ⟨s, hc⟩ | hc | ⟨m, hc⟩ | ⟨m, hc⟩ <;> rw [hc] at h
    · cases h
      rfl
    all_goals exact absurd h (by simp)

/-- C9 witness: the clip, slice, threshold and contour meta-propagation
parts of the amended theorem, discharged on concrete datasets and
concrete outputs. -/
theorem C9_meta_propagation_witness :
    (Dataset.mk (.clipOut ds0.kdata ⟨(1, 0, 0), (0, 0, 0)⟩ true)
        (some (1, "s"))).activeMeta = ds0.activeMeta ∧
    (Dataset.mk (.cutOut ds0.kdata ⟨(1, 0, 0), (0, 0, 0)⟩ false)
        (some (1, "s"))).activeMeta = ds0.activeMeta ∧
    (Dataset.mk (.threshOut ds0.kdata 1 "s" false (.upper (some 5)))
        (some (1, "s"))).activeMeta = ds0.activeMeta ∧
    (Dataset.mk (.contourOut dsPoint.kdata 0 "p" false false true
        (.explicit [some 1])) (some (0, "p"))).activeMeta =
      dsPoint.activeMeta := by
  have hclip : DataSetFilters.clip ds0 (.str "x") (some [0, 0, 0]) true =
      .ok (Dataset.mk (.clipOut ds0.kdata ⟨(1, 0, 0), (0, 0, 0)⟩ true)
        (some (1, "s"))) := by rfl
  have hin : is_inside_bounds [0, 0, 0] ds0.bounds = true := by
    show is_inside_bounds [0, 0, 0] unitBounds = true
    simp only [is_inside_bounds, unitBounds]
    norm_num
  have hslice : DataSetFilters.slice ds0 (.str "x") (some [0, 0, 0]) false =
      .ok (Dataset.mk (.cutOut ds0.kdata ⟨(1, 0, 0), (0, 0, 0)⟩ false)
        (some (1, "s"))) := by
    unfold DataSetFilters.slice
    dsimp only
    rw [show NORMALS.lookup (pyLower "x") = some [1, 0, 0] from rfl]
    dsimp only
    rw [ebind_ok]
    simp only [Option.getD_some, hin, eq_self_iff_true, not_true, if_false]
    rfl
  have hthresh : DataSetFilters.threshold ds0 (some (.single (some 5)))
      (some "s") false false "cell" =
      .ok (Dataset.mk (.threshOut ds0.kdata 1 "s" false (.upper (some 5)))
        (some (1, "s"))) := by
    rw [DataSetFilters.threshold.eq_def]
    dsimp only
    rw [show get_scalar ds0 "s" "cell" =
      some (⟨1, [some 0, some 10]⟩, 1) from rfl]
    rfl
  have hcont : DataSetFilters.contour dsPoint (.list [some 1]) none false
      false true "point" =
      .ok (Dataset.mk (.contourOut dsPoint.kdata 0 "p" false false true
        (.explicit [some 1])) (some (0, "p"))) := rfl
  exact ⟨(C9_meta_propagation ds0 false (1/5)).2.2.2.2.1 (.str "x")
      (some [0, 0, 0]) true _ hclip,
    (C9_meta_propagation ds0 false (1/5)).2.2.2.2.2.1 (.str "x")
      (some [0, 0, 0]) false _ hslice,
    (C9_meta_propagation ds0 false (1/5)).2.2.2.2.2.2.1
      (some (.single (some 5))) (some "s") false false "cell" _ hthresh,
    (C9_meta_propagation dsPoint false (1/5)).2.2.2.2.2.2.2
      (.list [some 1]) none false false true "point" _ hcont⟩

/-- C2: slice with an origin outside the dataset's bounding box fails with
the bounds-violation error (for any normal that passes string
resolution), and slice with the origin unspecified (defaulting to the
dataset center) or explicitly equal to the center succeeds for any
non-degenerate dataset. -/
theorem C2_slice_bounds_check (ds : Dataset) (gt : Bool) :
    (∀ (origin : List ℚ) (nrm : NormalArg), normalStage1Ok nrm = true →
        is_inside_bounds origin ds.bounds = false →
        DataSetFilters.slice ds nrm (some origin) gt =
          .error (.assertionError "Slice is outside data bounds.")) ∧
    (ds.bounds.xmin < ds.bounds.xmax → ds.bounds.ymin < ds.bounds.ymax →
        ds.bounds.zmin < ds.bounds.zmax →
        (∃ out, DataSetFilters.slice ds (.str "x") none gt = .ok out) ∧
        (∃ out, DataSetFilters.slice ds (.str "x") (some ds.center) gt = .ok out)) := by
  constructor
  · intro origin nrm hres hout
    rcases nrm with s | v | i
    · simp only [normalStage1Ok, Option.isSome_iff_exists] at hres
      obtain ⟨w, hl⟩ := hres
      unfold DataSetFilters.slice
      dsimp only
      rw [hl]
      dsimp only
      rw [ebind_ok]
      simp [hout]
    · unfold DataSetFilters.slice
      dsimp only
      rw [ebind_ok]
      simp [hout]
    · unfold DataSetFilters.slice
      dsimp only
      rw [ebind_ok]
      simp [hout]
  · intro h1 h2 h3
    have hc : is_inside_bounds ds.center ds.bounds = true :=
      center_inside ds h1.le h2.le h3.le
    constructor
    · unfold DataSetFilters.slice
      dsimp only
      rw [show NORMALS.lookup (pyLower "x") = some [1, 0, 0] from rfl]
      dsimp only
      rw [ebind_ok]
      simp only [Option.getD_none, hc, eq_self_iff_true, not_true, if_false]
      exact ⟨_, rfl⟩
    · unfold DataSetFilters.slice
      dsimp only
      rw [show NORMALS.lookup (pyLower "x") = some [1, 0, 0] from rfl]
      dsimp only
      rw [ebind_ok]
      simp only [Option.getD_some, hc, eq_self_iff_true, not_true, if_false]
      exact ⟨_, rfl⟩

/-- C2 witness: on a concrete dataset, slicing at an origin outside the
unit-cube bounds raises the bounds error, and slicing at the default
origin succeeds. -/
theorem C2_slice_bounds_check_witness :
    DataSetFilters.slice ds0 (.str "x") (some [5, 5, 5]) false =
      .error (.assertionError "Slice is outside data bounds.") ∧
    ∃ out, DataSetFilters.slice ds0 (.str "x") none false = .ok out :=
  ⟨(C2_slice_bounds_check ds0 false).1 [5, 5, 5] (.str "x") (by decide) (by decide),
   ((C2_slice_bounds_check ds0 false).2 (by decide) (by decide) (by decide)).1⟩

/-- C7: contour fails with a missing-data error when the dataset has no
scalar arrays at all, and fails when the resolved target scalar array —
explicitly named, or the dataset's active scalar — is cell-associated
rather than point-associated. -/
theorem C7_contour_missing_data :
    (∀ (ds : Dataset) (iso : DataSetFilters.IsoArg) (cn cg cs : Bool) (pref : String)
        (scalars : Option String), ds.n_scalars = 0 →
        DataSetFilters.contour ds iso scalars cn cg cs pref =
          .error (.assertionError
            "Input dataset for the contour filter must have scalar data.")) ∧
    (∀ (ds : Dataset) (iso : DataSetFilters.IsoArg) (cn cg cs : Bool) (pref name : String)
        (arr : DataArray), 1 ≤ ds.n_scalars →
        get_scalar ds name pref = some (arr, 1) →
        DataSetFilters.contour ds iso (some name) cn cg cs pref =
          .error (.assertionError
            ("Contour filter only works on Point data. Array (" ++ name ++
              ") is in the Cell data."))) ∧
    (∀ (ds : Dataset) (iso : DataSetFilters.IsoArg) (cn cg cs : Bool) (pref nm : String),
        1 ≤ ds.n_scalars → ds.activeMeta = some (1, nm) →
        DataSetFilters.contour ds iso none cn cg cs pref =
          .error (.assertionError
            ("Contour filter only works on Point data. Array (" ++ nm ++
              ") is in the Cell data."))) := by
  refine ⟨?_, ?_, ?_⟩
  · intro ds iso cn cg cs pref scalars h
    unfold DataSetFilters.contour
    rw [if_pos (by omega)]
  · intro ds iso cn cg cs pref name arr hn hg
    unfold DataSetFilters.contour
    rw [if_neg (by omega)]
    dsimp only
    rw [hg]
    dsimp only
    rw [ebind_ok]
    rw [if_pos (by simp)]
  · intro ds iso cn cg cs pref nm hn hmeta
    unfold DataSetFilters.contour
    rw [if_neg (by omega)]
    dsimp only
    rw [ebind_ok]
    have ha : active_scalar_info ds = (1, nm) := by
      simp [active_scalar_info, hmeta]
    rw [ha]
    rw [if_pos (by simp)]

/-- C7 witness: a dataset with no arrays is rejected, and a dataset whose
only (and active) array is cell-associated is rejected both when the
array is named explicitly and when it is resolved as the active scalar. -/
theorem C7_contour_missing_data_witness :
    DataSetFilters.contour dsEmpty (DataSetFilters.IsoArg.int 10) none false false
      true "point" =
      .error (.assertionError
        "Input dataset for the contour filter must have scalar data.") ∧
    DataSetFilters.contour ds0 (DataSetFilters.IsoArg.int 10) (some "s") false false
      true "point" =
      .error (.assertionError
        "Contour filter only works on Point data. Array (s) is in the Cell data.") ∧
    DataSetFilters.contour ds0 (DataSetFilters.IsoArg.int 10) none false false
      true "point" =
      .error (.assertionError
        "Contour filter only works on Point data. Array (s) is in the Cell data.") :=
  ⟨C7_contour_missing_data.1 dsEmpty (DataSetFilters.IsoArg.int 10) false false true
     "point" none rfl,
   C7_contour_missing_data.2.1 ds0 (DataSetFilters.IsoArg.int 10) false false true
     "point" "s" ⟨1, [some 0, some 10]⟩ (by decide) rfl,
   C7_contour_missing_data.2.2 ds0 (DataSetFilters.IsoArg.int 10) false false true
     "point" "s" (by decide) rfl⟩

/-- C3 counterexample: `_check_percent` accepts 1.5 (dividing it by 100 to
0.015, i.e. treating it as 1.5%), accepts a percentage that normalizes to
exactly 1e-10, and `threshold_percent` with percent 1.5 succeeds on a
concrete dataset — while the claim requires threshold_percent(1.5) to
fail and requires failure whenever the normalized value is not in the
open-below interval (1e-10, 1]. -/
theorem C3_percent_cex :
    DataSetFilters._check_percent (3 / 2) = .ok (3 / 200) ∧
    DataSetFilters._check_percent (1 / 10 ^ 10) = .ok (1 / 10 ^ 10) ∧
    (DataSetFilters.threshold_percent ds0 (.single (3 / 2)) (some "s") false
        false "cell").isOk = true := by
  have hc : DataSetFilters._check_percent (3 / 2) = .ok (3 / 200) := by
    unfold DataSetFilters._check_percent
    rw [if_pos (by norm_num)]
    dsimp only
    rw [if_neg (by norm_num), if_neg (by norm_num)]
    norm_num
  refine ⟨hc, ?_, ?_⟩
  · unfold DataSetFilters._check_percent
    rw [if_neg (by norm_num), if_neg (by norm_num)]
  · unfold DataSetFilters.threshold_percent
    dsimp only
    rw [show get_data_range ds0 "s" "cell" =
      .ok (nanminO [some 0, some 10], nanmaxO [some 0, some 10]) from rfl]
    rw [ebind_ok]
    dsimp only
    unfold DataSetFilters._get_val
    rw [hc, ebind_ok, ebind_ok, ebind_ok]
    rw [DataSetFilters.threshold.eq_def]
    dsimp only
    rw [show get_scalar ds0 "s" "cell" =
      some (⟨1, [some 0, some 10]⟩, 1) from rfl]
    rfl

/-- C3 (amended): `_check_percent` normalizes inputs ≥ 1 by dividing them
by 100 and succeeds — returning the normalized value — exactly when the
normalized value lies in the closed interval [1e-10, 1]; consequently
threshold_percent(0) and threshold_percent(1e-11) fail with the
too-close-to-zero RuntimeError, while threshold_percent(1.5) is accepted
as 1.5% (see the counterexample). -/
theorem C3_percent_range_amended :
    (∀ p : ℚ,
      (1 / 10 ^ 10 ≤ pnormalize p ∧ pnormalize p ≤ 1 →
        DataSetFilters._check_percent p = .ok (pnormalize p)) ∧
      (1 < pnormalize p ∨ pnormalize p < 1 / 10 ^ 10 →
        ∃ m, DataSetFilters._check_percent p = .error (.runtimeError m))) ∧
    (∀ (ds : Dataset) (name pref : String) (inv cont : Bool)
        (arr : DataArray) (f : Nat), get_scalar ds name pref = some (arr, f) →
        DataSetFilters.threshold_percent ds (.single 0) (some name) inv cont
            pref =
          .error (.runtimeError ("Percentage (" ++ toString (0 : ℚ) ++
            ") is too close to zero or negative.")) ∧
        DataSetFilters.threshold_percent ds (.single (1 / 10 ^ 11)) (some name)
            inv cont pref =
          .error (.runtimeError ("Percentage (" ++ toString ((1 : ℚ) / 10 ^ 11) ++
            ") is too close to zero or negative."))) := by
  constructor
  · intro p
    constructor
    · rintro ⟨hlo, hhi⟩
      unfold DataSetFilters._check_percent
      by_cases h1 : p ≥ 1
      · rw [pnormalize, if_pos h1] at hlo hhi
        rw [if_pos h1]
        dsimp only
        rw [if_neg (not_lt.mpr hhi), if_neg (not_lt.mpr hlo), pnormalize,
          if_pos h1]
      · rw [pnormalize, if_neg h1] at hlo hhi
        rw [if_neg h1, if_neg (not_lt.mpr hlo), pnormalize, if_neg h1]
    · intro h
      unfold DataSetFilters._check_percent
      by_cases h1 : p ≥ 1
      · rw [pnormalize, if_pos h1] at h
        rw [if_pos h1]
        dsimp only
        rcases h with h2 | h3
        · rw [if_pos h2]
          exact ⟨_, rfl⟩
        · rw [if_neg (by nlinarith [show (1:ℚ)/10^10 < 1 by norm_num]),
            if_pos h3]
          exact ⟨_, rfl⟩
      · rw [pnormalize, if_neg h1] at h
        rcases h with h2 | h3
        · exact absurd (le_of_lt h2) (by simpa using h1)
        · rw [if_neg h1, if_pos h3]
          exact ⟨_, rfl⟩
  · intro ds name pref inv cont arr f hg
    have hrange : get_data_range ds name pref =
        .ok (nanminO arr.values, nanmaxO arr.values) := by
      unfold get_data_range
      rw [hg]
    have hcp0 : DataSetFilters._check_percent 0 =
        .error (.runtimeError ("Percentage (" ++ toString (0 : ℚ) ++
          ") is too close to zero or negative.")) := by
      unfold DataSetFilters._check_percent
      rw [if_neg (by norm_num), if_pos (by norm_num)]
    have hcp1 : DataSetFilters._check_percent (1 / 10 ^ 11) =
        .error (.runtimeError ("Percentage (" ++ toString ((1 : ℚ) / 10 ^ 11) ++
          ") is too close to zero or negative.")) := by
      unfold DataSetFilters._check_percent
      rw [if_neg (by norm_num), if_pos (by norm_num)]
    constructor
    · unfold DataSetFilters.threshold_percent
      dsimp only
      rw [hrange, ebind_ok]
      dsimp only
      unfold DataSetFilters._get_val
      rw [hcp0, ebind_error, ebind_error]
    · unfold DataSetFilters.threshold_percent
      dsimp only
      rw [hrange, ebind_ok]
      dsimp only
      unfold DataSetFilters._get_val
      rw [hcp1, ebind_error, ebind_error]

/-- C3 witness: the amended characterization applied at percent 1/2 (50%)
and the threshold_percent failures applied on a concrete dataset. -/
theorem C3_percent_range_amended_witness :
    DataSetFilters._check_percent (1 / 2) = .ok (pnormalize (1 / 2)) ∧
    DataSetFilters.threshold_percent ds0 (.single 0) (some "s") false false
        "cell" =
      .error (.runtimeError ("Percentage (" ++ toString (0 : ℚ) ++
        ") is too close to zero or negative.")) :=
  ⟨(C3_percent_range_amended.1 (1 / 2)).1
      ⟨by norm_num [pnormalize], by norm_num [pnormalize]⟩,
   (C3_percent_range_amended.2 ds0 "s" "cell" false false
      ⟨1, [some 0, some 10]⟩ 1 rfl).1⟩

/-- C1: for every dataset on which the target scalar array resolves,
threshold with a 2-element range value [v0, v1] and invert=True returns
the merge (via the append filter) of two independent non-inverted range
thresholds, one over [array-nanmin, v0] and one over [v1, array-nanmax]. -/
theorem C1_threshold_invert_range (ds : Dataset) (v0 v1 : ℚ)
    (name pref : String) (cont : Bool) (arr : DataArray) (f : Nat)
    (hg : get_scalar ds name pref = some (arr, f)) :
    DataSetFilters.threshold ds
        (some (.range [some v0, some v1])) (some name) true cont pref =
      (do
        let t1 ← DataSetFilters.threshold ds
          (some (.range [nanminO arr.values, some v0])) (some name) false cont
          pref
        let t2 ← DataSetFilters.threshold ds
          (some (.range [some v1, nanmaxO arr.values])) (some name) false cont
          pref
        Except.ok (_get_output t1 (.appendOut t1.kdata t2.kdata) none "point")) := by
  rw [DataSetFilters.threshold.eq_def]
  dsimp only
  rw [hg]
  dsimp only
  simp only [show pyGet [some v0, some v1] (0 : Int) = .ok (some v0) from rfl,
    show pyGet [some v0, some v1] (1 : Int) = .ok (some v1) from rfl, ebind_ok]

/-- C1 witness: the inverted-range threshold equation instantiated on a
concrete dataset with range [3, 7]. -/
theorem C1_threshold_invert_range_witness :
    DataSetFilters.threshold ds0
        (some (.range [some 3, some 7])) (some "s") true false "cell" =
      (do
        let t1 ← DataSetFilters.threshold ds0
          (some (.range [nanminO [some 0, some 10], some 3])) (some "s") false
          false "cell"
        let t2 ← DataSetFilters.threshold ds0
          (some (.range [some 7, nanmaxO [some 0, some 10]])) (some "s") false
          false "cell"
        Except.ok (_get_output t1 (.appendOut t1.kdata t2.kdata) none "point")) :=
  C1_threshold_invert_range ds0 3 7 "s" "cell" false ⟨1, [some 0, some 10]⟩ 1 rfl

theorem mapM_ok {α β : Type} (f : α → Except PyError β) (g : α → β) :
    ∀ l : List α, (∀ a ∈ l, f a = .ok (g a)) → l.mapM f = .ok (l.map g) := by
  intro l
  induction l with
  | nil => intro _; rfl
  | cons a t ih =>
    intro h
    rw [List.mapM_cons, h a (List.mem_cons_self a t),
      ih (fun x hx => h x (List.mem_cons_of_mem a hx))]
    rfl

theorem pyGet_nat {α : Type} (l : List α) (i : Nat) (v : α)
    (h : l.get? i = some v) : pyGet l (i : Int) = .ok v := by
  unfold pyGet pyAdjust
  have h0 : ¬ ((i : Int) < 0) := by omega
  rw [if_neg h0, if_neg h0, Int.toNat_natCast, h]

theorem linspace_get (start stop : ℚ) (n i : Nat) (h : i < n) :
    (DataSetFilters.linspace start stop n).get? i =
      some (linval start stop n i) := by
  unfold DataSetFilters.linspace linval
  by_cases h0 : n = 0
  · omega
  · by_cases h1 : n = 1
    · subst h1
      have : i = 0 := by omega
      subst this
      simp
    · rw [if_neg h0, if_neg h1, if_neg (by omega)]
      rw [List.get?_eq_getElem?, List.getElem?_map, List.getElem?_range h]
      rfl

theorem linval_mem (lo hi : ℚ) (hle : lo ≤ hi) {n i : Nat} (hi' : i < n) :
    lo ≤ linval lo hi n i ∧ linval lo hi n i ≤ hi := by
  unfold linval
  split
  · exact ⟨le_refl lo, hle⟩
  · rename_i hn
    have hn2 : 2 ≤ n := by omega
    have hpos : (0 : ℚ) < (n : ℚ) - 1 := by
      have : (2 : ℚ) ≤ (n : ℚ) := by exact_mod_cast hn2
      linarith
    have hstep : 0 ≤ (hi - lo) / ((n : ℚ) - 1) := div_nonneg (by linarith) hpos.le
    have hip : (i : ℚ) ≤ (n : ℚ) - 1 := by
      have hi1 : (i : ℚ) + 1 ≤ (n : ℚ) := by exact_mod_cast hi'
      linarith
    constructor
    · have : 0 ≤ (hi - lo) / ((n : ℚ) - 1) * i :=
        mul_nonneg hstep (by positivity)
      linarith
    · have hmul : (hi - lo) / ((n : ℚ) - 1) * i ≤
          (hi - lo) / ((n : ℚ) - 1) * ((n : ℚ) - 1) :=
        mul_le_mul_of_nonneg_left hip hstep
      have hcan : (hi - lo) / ((n : ℚ) - 1) * ((n : ℚ) - 1) = hi - lo :=
        div_mul_cancel₀ _ (ne_of_gt hpos)
      linarith

theorem linval_strict_mono (lo hi : ℚ) (hlt : lo < hi) {n i j : Nat}
    (hij : i < j) (hj : j < n) :
    linval lo hi n i < linval lo hi n j := by
  unfold linval
  have hn : ¬ n ≤ 1 := by omega
  rw [if_neg hn, if_neg hn]
  have hpos : (0 : ℚ) < (n : ℚ) - 1 := by
    have : (2 : ℚ) ≤ (n : ℚ) := by exact_mod_cast (show 2 ≤ n by omega)
    linarith
  have hstep : 0 < (hi - lo) / ((n : ℚ) - 1) := div_pos (by linarith) hpos
  have hcast : (i : ℚ) < (j : ℚ) := by exact_mod_cast hij
  have := mul_lt_mul_of_pos_left hcast hstep
  linarith

theorem slice_x_triple (ds : Dataset) (a b c : ℚ) (gt : Bool)
    (hin : is_inside_bounds [a, b, c] ds.bounds = true) :
    DataSetFilters.slice ds (.str "x") (some [a, b, c]) gt =
      .ok ⟨.cutOut ds.kdata ⟨(1, 0, 0), (a, b, c)⟩ gt, ds.activeMeta⟩ := by
  unfold DataSetFilters.slice
  dsimp only
  rw [show NORMALS.lookup (pyLower "x") = some [1, 0, 0] from rfl]
  dsimp only
  rw [ebind_ok]
  simp only [Option.getD_some, hin, eq_self_iff_true, not_true, if_false]
  rfl

theorem slice_str_triple (ds : Dataset) (s : String) (v0 v1 v2 a b c : ℚ)
    (gt : Bool) (hl : NORMALS.lookup (pyLower s) = some [v0, v1, v2])
    (hin : is_inside_bounds [a, b, c] ds.bounds = true) :
    DataSetFilters.slice ds (.str s) (some [a, b, c]) gt =
      .ok ⟨.cutOut ds.kdata ⟨(v0, v1, v2), (a, b, c)⟩ gt, ds.activeMeta⟩ := by
  unfold DataSetFilters.slice
  dsimp only
  rw [hl]
  dsimp only
  rw [ebind_ok]
  simp only [Option.getD_some, hin, eq_self_iff_true, not_true, if_false]
  rfl

theorem slice_int_normal (ds : Dataset) (i : Int) (origin : List ℚ) (gt : Bool)
    (hin : is_inside_bounds origin ds.bounds = true) :
    DataSetFilters.slice ds (.int i) (some origin) gt =
      .error (.typeError "'int' object is not subscriptable") := by
  unfold DataSetFilters.slice
  dsimp only
  rw [ebind_ok]
  simp only [Option.getD_some, hin, eq_self_iff_true, not_true, if_false]
  rfl

/-- C5: `slice_along_axis` with a numeric axis index crashes — the raw
integer is passed as the `normal` of `slice`, where `_generate_plane`
subscripts it and raises TypeError — instead of behaving like the
corresponding symbolic axis name as the docstring promises. -/
theorem C5_numeric_axis_type_error :
    DataSetFilters.slice_along_axis ds0 1 (.int 0) none false =
      .error (.typeError "'int' object is not subscriptable") := by
  have hin : is_inside_bounds
      [0 + (1 - 0) * (1 / 100 : ℚ), ((0 : ℚ) + 1) / 2, ((0 : ℚ) + 1) / 2]
      ds0.bounds = true := by
    show is_inside_bounds _ unitBounds = true
    simp only [is_inside_bounds, unitBounds]
    norm_num
  have h1 : DataSetFilters.slice_along_axis ds0 1 (.int 0) none false =
      ((DataSetFilters.slice ds0 (.int 0)
          (some [0 + (1 - 0) * (1 / 100), ((0 : ℚ) + 1) / 2, ((0 : ℚ) + 1) / 2])
          false >>= fun slc => Except.ok ("slice00", slc)) >>=
        fun x => Except.ok [x]) := rfl
  rw [h1, slice_int_normal ds0 0 _ false hin, ebind_error, ebind_error]

/-- C4 counterexample: with default tolerance the first slice origin sits
exactly at `bound_min + tol` (here 1/100 on the unit cube), which is not
strictly inside the open interval `(bound_min + tol, bound_max - tol)`
required by the claim. -/
theorem C4_slice_endpoint_cex :
    (DataSetFilters.slice_along_axis ds0 1 (.str "x") none false).map
        (fun bl => bl.map (fun p => (p.1, sliceOriginX p.2))) =
      .ok [("slice00", 1 / 100)] ∧
    ¬ (ds0.bounds.xmin + (ds0.bounds.xmax - ds0.bounds.xmin) * (1 / 100) <
        1 / 100) := by
  constructor
  · have hin : is_inside_bounds
        [0 + (1 - 0) * (1 / 100 : ℚ), ((0 : ℚ) + 1) / 2, ((0 : ℚ) + 1) / 2]
        ds0.bounds = true := by
      show is_inside_bounds _ unitBounds = true
      simp only [is_inside_bounds, unitBounds]
      norm_num
    have h1 : DataSetFilters.slice_along_axis ds0 1 (.str "x") none false =
        ((DataSetFilters.slice ds0 (.str "x")
            (some [0 + (1 - 0) * (1 / 100), ((0 : ℚ) + 1) / 2, ((0 : ℚ) + 1) / 2])
            false >>= fun slc => Except.ok ("slice00", slc)) >>=
          fun x => Except.ok [x]) := rfl
    rw [h1, slice_x_triple ds0 _ _ _ false hin, ebind_ok, ebind_ok]
    dsimp only [Except.map, sliceOriginX]
    norm_num
  · show ¬ ((0 : ℚ) + ((1 : ℚ) - 0) * (1 / 100) < 1 / 100)
    norm_num

/-- C4 (amended): for each symbolic axis name 'x', 'y', 'z',
slice_along_axis with default tolerance produces exactly the n labeled
slices `'slice%.2d' % i`, whose origins along the chosen axis are the
evenly spaced linspace samples over the CLOSED interval
[bound_min + tol, bound_max - tol] (tol = 1% of the axis extent): every
origin lies between the toleranced bounds inclusive, the origins are
strictly increasing, and the interval endpoints are attained — the first
origin is exactly bound_min + tol and, for n ≥ 2, the last is exactly
bound_max - tol. -/
theorem C4_slice_along_axis_amended (ds : Dataset) (n : Nat) (gt : Bool)
    (hx : ds.bounds.xmin < ds.bounds.xmax)
    (hy : ds.bounds.ymin < ds.bounds.ymax)
    (hz : ds.bounds.zmin < ds.bounds.zmax) (_hn : 1 ≤ n) :
    (DataSetFilters.slice_along_axis ds n (.str "x") none gt =
      .ok ((List.range n).map (fun i =>
        ("slice" ++ pad2 i,
          Dataset.mk (.cutOut ds.kdata
            ⟨(1, 0, 0),
             (linval (ds.bounds.xmin + (ds.bounds.xmax - ds.bounds.xmin) * (1 / 100))
                (ds.bounds.xmax - (ds.bounds.xmax - ds.bounds.xmin) * (1 / 100)) n i,
              (ds.bounds.ymin + ds.bounds.ymax) / 2,
              (ds.bounds.zmin + ds.bounds.zmax) / 2)⟩ gt) ds.activeMeta))) ∧
    (∀ i, i < n →
      ds.bounds.xmin + (ds.bounds.xmax - ds.bounds.xmin) * (1 / 100) ≤
        linval (ds.bounds.xmin + (ds.bounds.xmax - ds.bounds.xmin) * (1 / 100))
          (ds.bounds.xmax - (ds.bounds.xmax - ds.bounds.xmin) * (1 / 100)) n i ∧
      linval (ds.bounds.xmin + (ds.bounds.xmax - ds.bounds.xmin) * (1 / 100))
          (ds.bounds.xmax - (ds.bounds.xmax - ds.bounds.xmin) * (1 / 100)) n i ≤
        ds.bounds.xmax - (ds.bounds.xmax - ds.bounds.xmin) * (1 / 100)) ∧
    (∀ i j, i < j → j < n →
      linval (ds.bounds.xmin + (ds.bounds.xmax - ds.bounds.xmin) * (1 / 100))
          (ds.bounds.xmax - (ds.bounds.xmax - ds.bounds.xmin) * (1 / 100)) n i <
      linval (ds.bounds.xmin + (ds.bounds.xmax - ds.bounds.xmin) * (1 / 100))
          (ds.bounds.xmax - (ds.bounds.xmax - ds.bounds.xmin) * (1 / 100)) n j)) ∧
    (DataSetFilters.slice_along_axis ds n (.str "y") none gt =
      .ok ((List.range n).map (fun i =>
        ("slice" ++ pad2 i,
          Dataset.mk (.cutOut ds.kdata
            ⟨(0, 1, 0),
             ((ds.bounds.xmin + ds.bounds.xmax) / 2,
              linval (ds.bounds.ymin + (ds.bounds.ymax - ds.bounds.ymin) * (1 / 100))
                (ds.bounds.ymax - (ds.bounds.ymax - ds.bounds.ymin) * (1 / 100)) n i,
              (ds.bounds.zmin + ds.bounds.zmax) / 2)⟩ gt) ds.activeMeta))) ∧
    (∀ i, i < n →
      ds.bounds.ymin + (ds.bounds.ymax - ds.bounds.ymin) * (1 / 100) ≤
        linval (ds.bounds.ymin + (ds.bounds.ymax - ds.bounds.ymin) * (1 / 100))
          (ds.bounds.ymax - (ds.bounds.ymax - ds.bounds.ymin) * (1 / 100)) n i ∧
      linval (ds.bounds.ymin + (ds.bounds.ymax - ds.bounds.ymin) * (1 / 100))
          (ds.bounds.ymax - (ds.bounds.ymax - ds.bounds.ymin) * (1 / 100)) n i ≤
        ds.bounds.ymax - (ds.bounds.ymax - ds.bounds.ymin) * (1 / 100)) ∧
    (∀ i j, i < j → j < n →
      linval (ds.bounds.ymin + (ds.bounds.ymax - ds.bounds.ymin) * (1 / 100))
          (ds.bounds.ymax - (ds.bounds.ymax - ds.bounds.ymin) * (1 / 100)) n i <
      linval (ds.bounds.ymin + (ds.bounds.ymax - ds.bounds.ymin) * (1 / 100))
          (ds.bounds.ymax - (ds.bounds.ymax - ds.bounds.ymin) * (1 / 100)) n j)) ∧
    (DataSetFilters.slice_along_axis ds n (.str "z") none gt =
      .ok ((List.range n).map (fun i =>
        ("slice" ++ pad2 i,
          Dataset.mk (.cutOut ds.kdata
            ⟨(0, 0, 1),
             ((ds.bounds.xmin + ds.bounds.xmax) / 2,
              (ds.bounds.ymin + ds.bounds.ymax) / 2,
              linval (ds.bounds.zmin + (ds.bounds.zmax - ds.bounds.zmin) * (1 / 100))
                (ds.bounds.zmax - (ds.bounds.zmax - ds.bounds.zmin) * (1 / 100)) n i)⟩ gt) ds.activeMeta))) ∧
    (∀ i, i < n →
      ds.bounds.zmin + (ds.bounds.zmax - ds.bounds.zmin) * (1 / 100) ≤
        linval (ds.bounds.zmin + (ds.bounds.zmax - ds.bounds.zmin) * (1 / 100))
          (ds.bounds.zmax - (ds.bounds.zmax - ds.bounds.zmin) * (1 / 100)) n i ∧
      linval (ds.bounds.zmin + (ds.bounds.zmax - ds.bounds.zmin) * (1 / 100))
          (ds.bounds.zmax - (ds.bounds.zmax - ds.bounds.zmin) * (1 / 100)) n i ≤
        ds.bounds.zmax - (ds.bounds.zmax - ds.bounds.zmin) * (1 / 100)) ∧
    (∀ i j, i < j → j < n →
      linval (ds.bounds.zmin + (ds.bounds.zmax - ds.bounds.zmin) * (1 / 100))
          (ds.bounds.zmax - (ds.bounds.zmax - ds.bounds.zmin) * (1 / 100)) n i <
      linval (ds.bounds.zmin + (ds.bounds.zmax - ds.bounds.zmin) * (1 / 100))
          (ds.bounds.zmax - (ds.bounds.zmax - ds.bounds.zmin) * (1 / 100)) n j)) ∧
    (∀ lo hi : ℚ, linval lo hi n 0 = lo ∧
      (2 ≤ n → linval lo hi n (n - 1) = hi)) := by
  refine ⟨?_, ?_, ?_, ?_⟩
  · have hext : (0 : ℚ) < ds.bounds.xmax - ds.bounds.xmin := by linarith
    have hLH : ds.bounds.xmin + (ds.bounds.xmax - ds.bounds.xmin) * (1 / 100) <
        ds.bounds.xmax - (ds.bounds.xmax - ds.bounds.xmin) * (1 / 100) := by
      linarith
    refine ⟨?_, fun i hi => linval_mem _ _ hLH.le hi,
      fun i j hij hj => linval_strict_mono _ _ hLH hij hj⟩
    have hbody : DataSetFilters.slice_along_axis ds n (.str "x") none gt =
        (List.range n).mapM (fun i : Nat => do
          let ri ← pyGet (DataSetFilters.linspace
            (ds.bounds.xmin + (ds.bounds.xmax - ds.bounds.xmin) * (1 / 100))
            (ds.bounds.xmax - (ds.bounds.xmax - ds.bounds.xmin) * (1 / 100)) n)
            (i : Int)
          let c ← pySet ds.center 0 ri
          let slc ← DataSetFilters.slice ds (.str "x") (some c) gt
          Except.ok ("slice" ++ pad2 i, slc)) := rfl
    rw [hbody]
    rw [mapM_ok _ (fun i =>
      ("slice" ++ pad2 i,
        Dataset.mk (.cutOut ds.kdata
          ⟨(1, 0, 0),
           (linval (ds.bounds.xmin + (ds.bounds.xmax - ds.bounds.xmin) * (1 / 100))
                (ds.bounds.xmax - (ds.bounds.xmax - ds.bounds.xmin) * (1 / 100)) n i,
            (ds.bounds.ymin + ds.bounds.ymax) / 2,
            (ds.bounds.zmin + ds.bounds.zmax) / 2)⟩ gt) ds.activeMeta))
      (List.range n) ?_]
    intro i hi
    have hi' : i < n := List.mem_range.mp hi
    have hmem := linval_mem
      (ds.bounds.xmin + (ds.bounds.xmax - ds.bounds.xmin) * (1 / 100))
      (ds.bounds.xmax - (ds.bounds.xmax - ds.bounds.xmin) * (1 / 100)) hLH.le hi'
    rw [pyGet_nat _ i _ (linspace_get _ _ n i hi'), ebind_ok]
    rw [show pySet ds.center 0
        (linval (ds.bounds.xmin + (ds.bounds.xmax - ds.bounds.xmin) * (1 / 100))
          (ds.bounds.xmax - (ds.bounds.xmax - ds.bounds.xmin) * (1 / 100)) n i) =
      .ok [linval (ds.bounds.xmin + (ds.bounds.xmax - ds.bounds.xmin) * (1 / 100))
                (ds.bounds.xmax - (ds.bounds.xmax - ds.bounds.xmin) * (1 / 100)) n i,
        (ds.bounds.ymin + ds.bounds.ymax) / 2,
        (ds.bounds.zmin + ds.bounds.zmax) / 2] from rfl, ebind_ok]
    have hin : is_inside_bounds
        [linval (ds.bounds.xmin + (ds.bounds.xmax - ds.bounds.xmin) * (1 / 100))
                (ds.bounds.xmax - (ds.bounds.xmax - ds.bounds.xmin) * (1 / 100)) n i,
         (ds.bounds.ymin + ds.bounds.ymax) / 2,
         (ds.bounds.zmin + ds.bounds.zmax) / 2] ds.bounds = true := by
      simp only [is_inside_bounds]
      exact decide_eq_true ⟨by linarith [hmem.1, hmem.2],
        by linarith [hmem.1, hmem.2], by linarith [hmem.1, hmem.2],
        by linarith [hmem.1, hmem.2], by linarith [hmem.1, hmem.2],
        by linarith [hmem.1, hmem.2]⟩
    rw [slice_str_triple ds "x" 1 0 0 _ _ _ gt rfl hin, ebind_ok]
  · have hext : (0 : ℚ) < ds.bounds.ymax - ds.bounds.ymin := by linarith
    have hLH : ds.bounds.ymin + (ds.bounds.ymax - ds.bounds.ymin) * (1 / 100) <
        ds.bounds.ymax - (ds.bounds.ymax - ds.bounds.ymin) * (1 / 100) := by
      linarith
    refine ⟨?_, fun i hi => linval_mem _ _ hLH.le hi,
      fun i j hij hj => linval_strict_mono _ _ hLH hij hj⟩
    have hbody : DataSetFilters.slice_along_axis ds n (.str "y") none gt =
        (List.range n).mapM (fun i : Nat => do
          let ri ← pyGet (DataSetFilters.linspace
            (ds.bounds.ymin + (ds.bounds.ymax - ds.bounds.ymin) * (1 / 100))
            (ds.bounds.ymax - (ds.bounds.ymax - ds.bounds.ymin) * (1 / 100)) n)
            (i : Int)
          let c ← pySet ds.center 1 ri
          let slc ← DataSetFilters.slice ds (.str "y") (some c) gt
          Except.ok ("slice" ++ pad2 i, slc)) := rfl
    rw [hbody]
    rw [mapM_ok _ (fun i =>
      ("slice" ++ pad2 i,
        Dataset.mk (.cutOut ds.kdata
          ⟨(0, 1, 0),
           ((ds.bounds.xmin + ds.bounds.xmax) / 2,
            linval (ds.bounds.ymin + (ds.bounds.ymax - ds.bounds.ymin) * (1 / 100))
                (ds.bounds.ymax - (ds.bounds.ymax - ds.bounds.ymin) * (1 / 100)) n i,
            (ds.bounds.zmin + ds.bounds.zmax) / 2)⟩ gt) ds.activeMeta))
      (List.range n) ?_]
    intro i hi
    have hi' : i < n := List.mem_range.mp hi
    have hmem := linval_mem
      (ds.bounds.ymin + (ds.bounds.ymax - ds.bounds.ymin) * (1 / 100))
      (ds.bounds.ymax - (ds.bounds.ymax - ds.bounds.ymin) * (1 / 100)) hLH.le hi'
    rw [pyGet_nat _ i _ (linspace_get _ _ n i hi'), ebind_ok]
    rw [show pySet ds.center 1
        (linval (ds.bounds.ymin + (ds.bounds.ymax - ds.bounds.ymin) * (1 / 100))
          (ds.bounds.ymax - (ds.bounds.ymax - ds.bounds.ymin) * (1 / 100)) n i) =
      .ok [(ds.bounds.xmin + ds.bounds.xmax) / 2,
        linval (ds.bounds.ymin + (ds.bounds.ymax - ds.bounds.ymin) * (1 / 100))
                (ds.bounds.ymax - (ds.bounds.ymax - ds.bounds.ymin) * (1 / 100)) n i,
        (ds.bounds.zmin + ds.bounds.zmax) / 2] from rfl, ebind_ok]
    have hin : is_inside_bounds
        [(ds.bounds.xmin + ds.bounds.xmax) / 2,
         linval (ds.bounds.ymin + (ds.bounds.ymax - ds.bounds.ymin) * (1 / 100))
                (ds.bounds.ymax - (ds.bounds.ymax - ds.bounds.ymin) * (1 / 100)) n i,
         (ds.bounds.zmin + ds.bounds.zmax) / 2] ds.bounds = true := by
      simp only [is_inside_bounds]
      exact decide_eq_true ⟨by linarith [hmem.1, hmem.2],
        by linarith [hmem.1, hmem.2], by linarith [hmem.1, hmem.2],
        by linarith [hmem.1, hmem.2], by linarith [hmem.1, hmem.2],
        by linarith [hmem.1, hmem.2]⟩
    rw [slice_str_triple ds "y" 0 1 0 _ _ _ gt rfl hin, ebind_ok]
  · have hext : (0 : ℚ) < ds.bounds.zmax - ds.bounds.zmin := by linarith
    have hLH : ds.bounds.zmin + (ds.bounds.zmax - ds.bounds.zmin) * (1 / 100) <
        ds.bounds.zmax - (ds.bounds.zmax - ds.bounds.zmin) * (1 / 100) := by
      linarith
    refine ⟨?_, fun i hi => linval_mem _ _ hLH.le hi,
      fun i j hij hj => linval_strict_mono _ _ hLH hij hj⟩
    have hbody : DataSetFilters.slice_along_axis ds n (.str "z") none gt =
        (List.range n).mapM (fun i : Nat => do
          let ri ← pyGet (DataSetFilters.linspace
            (ds.bounds.zmin + (ds.bounds.zmax - ds.bounds.zmin) * (1 / 100))
            (ds.bounds.zmax - (ds.bounds.zmax - ds.bounds.zmin) * (1 / 100)) n)
            (i : Int)
          let c ← pySet ds.center 2 ri
          let slc ← DataSetFilters.slice ds (.str "z") (some c) gt
          Except.ok ("slice" ++ pad2 i, slc)) := rfl
    rw [hbody]
    rw [mapM_ok _ (fun i =>
      ("slice" ++ pad2 i,
        Dataset.mk (.cutOut ds.kdata
          ⟨(0, 0, 1),
           ((ds.bounds.xmin + ds.bounds.xmax) / 2,
            (ds.bounds.ymin + ds.bounds.ymax) / 2,
            linval (ds.bounds.zmin + (ds.bounds.zmax - ds.bounds.zmin) * (1 / 100))
                (ds.bounds.zmax - (ds.bounds.zmax - ds.bounds.zmin) * (1 / 100)) n i)⟩ gt) ds.activeMeta))
      (List.range n) ?_]
    intro i hi
    have hi' : i < n := List.mem_range.mp hi
    have hmem := linval_mem
      (ds.bounds.zmin + (ds.bounds.zmax - ds.bounds.zmin) * (1 / 100))
      (ds.bounds.zmax - (ds.bounds.zmax - ds.bounds.zmin) * (1 / 100)) hLH.le hi'
    rw [pyGet_nat _ i _ (linspace_get _ _ n i hi'), ebind_ok]
    rw [show pySet ds.center 2
        (linval (ds.bounds.zmin + (ds.bounds.zmax - ds.bounds.zmin) * (1 / 100))
          (ds.bounds.zmax - (ds.bounds.zmax - ds.bounds.zmin) * (1 / 100)) n i) =
      .ok [(ds.bounds.xmin + ds.bounds.xmax) / 2,
        (ds.bounds.ymin + ds.bounds.ymax) / 2,
        linval (ds.bounds.zmin + (ds.bounds.zmax - ds.bounds.zmin) * (1 / 100))
                (ds.bounds.zmax - (ds.bounds.zmax - ds.bounds.zmin) * (1 / 100)) n i] from rfl, ebind_ok]
    have hin : is_inside_bounds
        [(ds.bounds.xmin + ds.bounds.xmax) / 2,
         (ds.bounds.ymin + ds.bounds.ymax) / 2,
         linval (ds.bounds.zmin + (ds.bounds.zmax - ds.bounds.zmin) * (1 / 100))
                (ds.bounds.zmax - (ds.bounds.zmax - ds.bounds.zmin) * (1 / 100)) n i] ds.bounds = true := by
      simp only [is_inside_bounds]
      exact decide_eq_true ⟨by linarith [hmem.1, hmem.2],
        by linarith [hmem.1, hmem.2], by linarith [hmem.1, hmem.2],
        by linarith [hmem.1, hmem.2], by linarith [hmem.1, hmem.2],
        by linarith [hmem.1, hmem.2]⟩
    rw [slice_str_triple ds "z" 0 0 1 _ _ _ gt rfl hin, ebind_ok]
  · intro lo hi
    constructor
    · unfold linval
      split
      · rfl
      · simp
    · intro h2n
      unfold linval
      rw [if_neg (by omega)]
      have hne : ((n : ℚ) - 1) ≠ 0 := by
        have : (2 : ℚ) ≤ (n : ℚ) := by exact_mod_cast h2n
        linarith
      have hone : 1 ≤ n := by omega
      rw [Nat.cast_sub hone, Nat.cast_one, div_mul_cancel₀ _ hne]
      ring

/-- C4 witness: the amended slice_along_axis description instantiated on
a concrete unit-cube dataset with n = 2, for all three axes. -/
theorem C4_slice_along_axis_amended_witness :
    (DataSetFilters.slice_along_axis ds0 2 (.str "x") none false =
      .ok ((List.range 2).map (fun i =>
        ("slice" ++ pad2 i,
          Dataset.mk (.cutOut ds0.kdata
            ⟨(1, 0, 0),
             (linval (ds0.bounds.xmin + (ds0.bounds.xmax - ds0.bounds.xmin) * (1 / 100))
                (ds0.bounds.xmax - (ds0.bounds.xmax - ds0.bounds.xmin) * (1 / 100)) 2 i,
              (ds0.bounds.ymin + ds0.bounds.ymax) / 2,
              (ds0.bounds.zmin + ds0.bounds.zmax) / 2)⟩ false) ds0.activeMeta)))) ∧
    (DataSetFilters.slice_along_axis ds0 2 (.str "y") none false =
      .ok ((List.range 2).map (fun i =>
        ("slice" ++ pad2 i,
          Dataset.mk (.cutOut ds0.kdata
            ⟨(0, 1, 0),
             ((ds0.bounds.xmin + ds0.bounds.xmax) / 2,
              linval (ds0.bounds.ymin + (ds0.bounds.ymax - ds0.bounds.ymin) * (1 / 100))
                (ds0.bounds.ymax - (ds0.bounds.ymax - ds0.bounds.ymin) * (1 / 100)) 2 i,
              (ds0.bounds.zmin + ds0.bounds.zmax) / 2)⟩ false) ds0.activeMeta)))) ∧
    (DataSetFilters.slice_along_axis ds0 2 (.str "z") none false =
      .ok ((List.range 2).map (fun i =>
        ("slice" ++ pad2 i,
          Dataset.mk (.cutOut ds0.kdata
            ⟨(0, 0, 1),
             ((ds0.bounds.xmin + ds0.bounds.xmax) / 2,
              (ds0.bounds.ymin + ds0.bounds.ymax) / 2,
              linval (ds0.bounds.zmin + (ds0.bounds.zmax - ds0.bounds.zmin) * (1 / 100))
                (ds0.bounds.zmax - (ds0.bounds.zmax - ds0.bounds.zmin) * (1 / 100)) 2 i)⟩ false) ds0.activeMeta)))) :=
  ⟨(C4_slice_along_axis_amended ds0 2 false (by decide) (by decide) (by decide)
      (by decide)).1.1,
   (C4_slice_along_axis_amended ds0 2 false (by decide) (by decide) (by decide)
      (by decide)).2.1.1,
   (C4_slice_along_axis_amended ds0 2 false (by decide) (by decide) (by decide)
      (by decide)).2.2.1.1⟩
